import Mathlib

/-!
Shallow embedding of the app-configuration validator
(`src/platform/validation/validate.py`) of the azure-deployment-platform
repository, together with theorems settling the frozen claims about it.

The parsed YAML configuration is modelled as a tagged value tree; Python
dictionary access (`dict.get`), truthiness, numeric comparison and string
operations are modelled explicitly, with Python runtime exceptions
(`AttributeError`, `TypeError`, `yaml.YAMLError`) surfaced through `Except`.
-/

namespace AppConfig

/-- Severity levels used by the validator's diagnostics. -/
inductive Severity where
  | critical
  | error
  | warning
deriving DecidableEq, Repr

/-- Python runtime exceptions that can escape the validator. -/
inductive PyErr where
  | attributeError
  | typeError
  | yamlError
deriving DecidableEq, Repr

/-- Generic hierarchical value produced by `yaml.safe_load`: mappings are
association lists (first binding wins, mirroring an already-deduplicated
parsed dictionary). -/
inductive Yaml where
  | null
  | bool (b : Bool)
  | num (q : ℚ)
  | str (s : String)
  | arr (xs : List Yaml)
  | map (kvs : List (String × Yaml))

mutual

/-- Structural equality on YAML values, modelling Python `==` on the parsed
trees (numbers are compared as rationals). -/
def Yaml.beq : Yaml → Yaml → Bool
  | .null, .null => true
  | .bool a, .bool b => a == b
  | .num a, .num b => a == b
  | .str a, .str b => a == b
  | .arr a, .arr b => Yaml.beqList a b
  | .map a, .map b => Yaml.beqKV a b
  | _, _ => false

/-- Elementwise equality of YAML sequences. -/
def Yaml.beqList : List Yaml → List Yaml → Bool
  | [], [] => true
  | x :: xs, y :: ys => Yaml.beq x y && Yaml.beqList xs ys
  | _, _ => false

/-- Elementwise equality of YAML mappings. -/
def Yaml.beqKV : List (String × Yaml) → List (String × Yaml) → Bool
  | [], [] => true
  | (k1, v1) :: xs, (k2, v2) :: ys => k1 == k2 && Yaml.beq v1 v2 && Yaml.beqKV xs ys
  | _, _ => false

end

instance : BEq Yaml := ⟨Yaml.beq⟩

/-- Python truthiness of a parsed YAML value (`if value:`). -/
def Yaml.truthy : Yaml → Bool
  | .null => false
  | .bool b => b
  | .num q => q != 0
  | .str s => s != ""
  | .arr xs => !xs.isEmpty
  | .map kvs => !kvs.isEmpty

/-- Python `value.get(key, default)`: defined on dictionaries only; on any
other value Python raises `AttributeError` (no `get` attribute). -/
def pyDictGet (v : Yaml) (key : String) (default : Yaml) : Except PyErr Yaml :=
  match v with
  | .map kvs => .ok ((kvs.lookup key).getD default)
  | _ => .error .attributeError

/-- Python numeric coercion for an order comparison such as `x > 2.0`:
numbers compare as themselves, booleans as 0/1 (Python `bool` is an `int`
subtype); comparing any other value with a number raises `TypeError`. -/
def Yaml.asNum : Yaml → Except PyErr ℚ
  | .num q => .ok q
  | .bool b => .ok (if b then 1 else 0)
  | _ => .error .typeError

/-- Coercion of a YAML value to the string expected by `Path./` and
`str.join`; any non-string operand raises `TypeError` there. -/
def Yaml.asStr : Yaml → Except PyErr String
  | .str s => .ok s
  | _ => .error .typeError

/-- Dropping of one leading `./` from a path segment. -/
def dropDotSlash (b : String) : String :=
  match b.data with
  | '.' :: '/' :: rest => List.asString rest
  | _ => b

/-- Test for an absolute path segment. -/
def startsSlash (s : String) : Bool :=
  match s.data with
  | '/' :: _ => true
  | _ => false

/-- Joining of one segment onto a path, modelling `pathlib.Path./`: a
leading `./` and bare `.` segments are dropped, an absolute segment
replaces the base. -/
def pathJoin (a b : String) : String :=
  let b2 := dropDotSlash b
  if b2 = "" ∨ b2 = "." then a
  else if startsSlash b2 then b2
  else a ++ "/" ++ b2

/-- First-occurrence deduplication of a value list, modelling the contents
of a Python set built by comprehension (iteration order abstracted as
first-occurrence order). -/
def dedupYaml (l : List Yaml) : List Yaml :=
  l.foldl (fun acc x => if acc.contains x then acc else acc ++ [x]) []

/-- Hundredths of a rational rounded half-up to an integer: the floor of
`100 * q + 1/2`, computed directly on numerator and denominator by
flooring integer division. -/
def centsOf (q : ℚ) : ℤ :=
  Int.fdiv (200 * q.num + q.den) (2 * q.den)

/-- Two-decimal fixed-point rendering of a rational, modelling Python
string formatting with `.2f` (ties rounded half-up). -/
def fmt2 (q : ℚ) : String :=
  let n : ℤ := centsOf q
  let sign := if n < 0 then "-" else ""
  let m := n.natAbs
  let frac := m % 100
  let fracStr := if frac < 10 then "0" ++ toString frac else toString frac
  sign ++ toString (m / 100) ++ "." ++ fracStr

/-- Decimal rendering of a YAML number interpolated into a message
(integers without a fractional part; other rationals as a fraction — the
exact rendering is irrelevant to every claim). -/
def fmtNum (q : ℚ) : String :=
  if q.den = 1 then toString q.num
  else toString q.num ++ "/" ++ toString q.den

/-- Diagnostic dictionary appended to the errors list: optional fields are
absent keys of the Python dict. -/
structure Diagnostic where
  error : String
  fieldPath : Option String
  details : Option String
  why_this_matters : String
  fix : String
  severity : Severity
  docs_link : Option String
deriving DecidableEq, Repr

/-- Rendering of a YAML value by Python `str()` inside an f-string; only the
string and scalar cases are exercised by the validator's messages, the
container cases are display-only stand-ins. -/
def Yaml.pyStr : Yaml → String
  | .null => "None"
  | .bool b => if b then "True" else "False"
  | .num q => fmtNum q
  | .str s => s
  | .arr _ => "[...]"
  | .map _ => "\x7b...\x7d"

/-- Data of a `jsonschema.ValidationError` as consumed by the validator:
`message`, the error path (components already rendered by `str`), the name
of the violated keyword (`error.validator`), and the keys of the failing
subschema that the fix logic inspects.  Enum members and numeric bounds are
held in their rendered form, as they are only interpolated into messages. -/
structure ValidationError where
  message : String
  path : List String
  validator : String
  schemaPattern : Option String
  schemaEnum : Option (List String)
  schemaType : Option String
  schemaMin : Option String
  schemaMax : Option String
deriving DecidableEq, Repr

/-- Identifier pattern recognised by `_get_fix_suggestion`. -/
def knownNamePattern : String := "^[a-z0-9-]\x7b3,15\x7d$"

/-- Splitting of a character list at every occurrence of a separator. -/
def splitChar (c : Char) : List Char → List (List Char)
  | [] => [[]]
  | x :: xs =>
    match splitChar c xs with
    | [] => [[x]]
    | g :: gs => if x = c then [] :: g :: gs else (x :: g) :: gs

/-- Python `s.split(c)` for a one-character separator (always returns at
least one group). -/
def pySplit (s : String) (c : Char) : List String :=
  (splitChar c s.data).map List.asString

/-- Embedding of `AppConfigValidator._get_field_explanation`. -/
def get_field_explanation (field_path : String) : String :=
  let explanations : List (String × String) :=
    [ ("app.name",
        "App name is used in all Azure resource names (e.g., rg-\x7bname\x7d-dev). Must be DNS-safe and unique across the platform."),
      ("app.team",
        "Team ownership is used for cost allocation and access control. Helps us track who owns what and how much each team spends."),
      ("app.region",
        "Azure region determines where your app runs. Affects latency and compliance requirements."),
      ("components.backend.cpu",
        "CPU allocation affects both performance and monthly costs. 1 core ≈ £20/month. Start low and scale up if needed."),
      ("components.backend.memory",
        "Memory allocation in GB. Affects cost (~£2.5/GB/month) and app performance. Most apps work fine with 1-2GB."),
      ("components.backend.port",
        "Port your backend listens on. Must match what your Dockerfile EXPOSEs. Used for health checks and routing."),
      ("components.database.enabled",
        "Deploying a database adds ~£25/month to costs but provides managed, backed-up storage."),
      ("environment",
        "Environment (dev/staging/prod) affects resource naming and potentially sizing. Helps organize deployments.") ]
  (explanations.lookup field_path).getD "This field is required by the platform configuration"

/-- Embedding of `AppConfigValidator._get_fix_suggestion`: the guard of the
first branch folds the source's nested test (`pattern` key present, then
equal to the known identifier pattern) into one equality, which falls
through to the later branches in exactly the same cases. -/
def get_fix_suggestion (e : ValidationError) : String :=
  if e.schemaPattern = some knownNamePattern then
    "Use only lowercase letters, numbers, and hyphens. Length must be 3-15 characters. Example: \x27my-app\x27 or \x27api-service\x27"
  else if e.validator = "required" then
    let missing := ((pySplit e.message '\x27').getD 1 "")
    "Add the required field \x27" ++ missing ++ "\x27 to your configuration"
  else if e.validator = "enum" then
    let joined := ", ".intercalate (e.schemaEnum.getD [])
    "Value must be one of: " ++ joined
  else if e.validator = "type" then
    let t := e.schemaType.getD "None"
    "This field must be a " ++ t
  else if e.schemaMin.isSome ∨ e.schemaMax.isSome then
    let mn := e.schemaMin.getD ""
    let mx := e.schemaMax.getD ""
    "Value must be between " ++ mn ++ " and " ++ mx
  else
    "Check the schema documentation for correct format"

/-- Replacement of every dot by a hyphen, modelling the anchor rewriting
`field_path.replace(".", "-")`. -/
def dotsToDashes (s : String) : String :=
  List.asString (s.data.map (fun ch => if ch = '.' then '-' else ch))

/-- Embedding of `AppConfigValidator._get_docs_link`. -/
def get_docs_link (field_path : String) : String :=
  "platform/docs/configuration-reference.md#" ++ dotsToDashes field_path

/-- Dotted field path of a validation error (`"root"` when the path is
empty), as computed at the top of `_explain_validation_error`. -/
def errorFieldPath (e : ValidationError) : String :=
  if e.path.isEmpty then "root" else String.intercalate "." e.path

/-- Embedding of `AppConfigValidator._explain_validation_error` (its unused
`config_path` parameter is omitted). -/
def explain_validation_error (e : ValidationError) : Diagnostic :=
  ⟨e.message, some (errorFieldPath e), none,
    get_field_explanation (errorFieldPath e), get_fix_suggestion e,
    .error, some (get_docs_link (errorFieldPath e))⟩

/-- Diagnostic for a missing configuration file (`FileNotFoundError`). -/
def fileNotFoundDiag (config_path : String) : Diagnostic :=
  ⟨"File not found: " ++ config_path, none, none,
    "We need an app-config.yml file to know how to deploy your app",
    "Create " ++ config_path ++ " using the template from apps/_template/",
    .critical, some "platform/docs/onboarding.md#step-2-create-configuration"⟩

/-- Diagnostic for a YAML parse failure (`yaml.YAMLError`), carrying the
stringified parser exception in `details`. -/
def yamlErrorDiag (msg : String) : Diagnostic :=
  ⟨"Failed to parse YAML", none, some msg,
    "YAML syntax errors prevent us from reading your configuration",
    "Check YAML syntax at https://www.yamllint.com/ or use a YAML linter",
    .critical, none⟩

/-- Diagnostic of business rule 1 (backend Dockerfile missing). -/
def backendDockerfileDiag (dockerfile_path : String) : Diagnostic :=
  ⟨"Backend enabled but Dockerfile not found at " ++ dockerfile_path, none, none,
    "We need a Dockerfile to build your backend container image. Without it, deployment will fail.",
    "Create " ++ dockerfile_path ++ " or set components.backend.enabled to false",
    .error, some "platform/docs/dockerfile-guide.md"⟩

/-- Diagnostic of business rule 2 (frontend Dockerfile missing). -/
def frontendDockerfileDiag (dockerfile_path : String) : Diagnostic :=
  ⟨"Frontend enabled but Dockerfile not found at " ++ dockerfile_path, none, none,
    "We need a Dockerfile to build your frontend container image",
    "Create " ++ dockerfile_path ++ " or set components.frontend.enabled to false",
    .error, none⟩

/-- Diagnostic of business rule 3 (high CPU allocation), interpolating the
allocation and the estimated monthly cost `cpu * 20`. -/
def highCpuDiag (backend_cpu : ℚ) : Diagnostic :=
  let cost := fmt2 (backend_cpu * 20)
  ⟨"Backend CPU allocation is high: " ++ fmtNum backend_cpu ++ " cores", none, none,
    "This will cost approximately £" ++ cost ++ "/month just for CPU. Consider starting with 1-2 cores and scaling up if needed.",
    "Reduce components.backend.cpu to 1.0 or 2.0 unless you have specific performance requirements",
    .warning, none⟩

/-- Diagnostic of business rule 4 (team not registered); `team` is the
stringified team value and `joined` the comma-joined registered teams. -/
def teamDiag (team : String) (joined : String) : Diagnostic :=
  ⟨"Team \x27" ++ team ++ "\x27 not found in registry", none, none,
    "Teams must be registered for cost allocation and access control. This prevents typos and ensures proper ownership.",
    "1. Add your team to apps/_registry.yml, OR\n2. Use an existing team name: " ++ joined,
    .warning, none⟩

/-- Python iteration over the value bound in
`for app in registry.get("apps", [])`: sequences yield their elements; a
non-empty mapping or string yields elements without a `get` attribute, so
the comprehension body raises `AttributeError`; scalars are not iterable
(`TypeError`). -/
def yamlIter : Yaml → Except PyErr (List Yaml)
  | .arr xs => .ok xs
  | .map kvs => if kvs.isEmpty then .ok [] else .error .attributeError
  | .str s => if s.isEmpty then .ok [] else .error .attributeError
  | _ => .error .typeError

/-- Outcome of opening and `yaml.safe_load`-ing the configuration file. -/
inductive LoadResult where
  | notFound
  | parseFail (msg : String)
  | ok (config : Yaml)

/-- Environment of one validation run: the loaded document, the
`jsonschema.validate` oracle (first violation or none), the filesystem
existence probe, the team registry resource (absent / malformed /
parsed), and the configuration path with its parent directory. -/
structure Input where
  loadResult : LoadResult
  schemaCheck : Yaml → Option ValidationError
  fsExists : String → Bool
  registryFile : Option (Except PyErr Yaml)
  configPath : String
  configDir : String

/-- Business rule 1 of `_custom_validations`: backend Dockerfile presence. -/
def check1 (inp : Input) (config : Yaml) : Except PyErr (List Diagnostic) := do
  let comps ← pyDictGet config "components" (.map [])
  let backend ← pyDictGet comps "backend" (.map [])
  let enabled ← pyDictGet backend "enabled" .null
  if enabled.truthy then
    let dirY ← pyDictGet backend "directory" (.str "./backend")
    let dirS ← dirY.asStr
    let dockerfile_path := pathJoin (pathJoin inp.configDir dirS) "Dockerfile"
    if inp.fsExists dockerfile_path then pure []
    else pure [backendDockerfileDiag dockerfile_path]
  else
    pure []

/-- Business rule 2 of `_custom_validations`: frontend Dockerfile presence. -/
def check2 (inp : Input) (config : Yaml) : Except PyErr (List Diagnostic) := do
  let comps ← pyDictGet config "components" (.map [])
  let frontend ← pyDictGet comps "frontend" (.map [])
  let enabled ← pyDictGet frontend "enabled" .null
  if enabled.truthy then
    let dirY ← pyDictGet frontend "directory" (.str "./frontend")
    let dirS ← dirY.asStr
    let dockerfile_path := pathJoin (pathJoin inp.configDir dirS) "Dockerfile"
    if inp.fsExists dockerfile_path then pure []
    else pure [frontendDockerfileDiag dockerfile_path]
  else
    pure []

/-- Business rule 3 of `_custom_validations`: high CPU warning
(`cpu` defaults to 0 when absent, then is compared against 2.0). -/
def check3 (config : Yaml) : Except PyErr (List Diagnostic) := do
  let comps ← pyDictGet config "components" (.map [])
  let backend ← pyDictGet comps "backend" (.map [])
  let cpuY ← pyDictGet backend "cpu" (.num 0)
  let backend_cpu ← cpuY.asNum
  if 2 < backend_cpu then pure [highCpuDiag backend_cpu]
  else pure []

/-- Collection of `app.get("team")` over the registry's app entries, as
performed by the set comprehension of check 4 (first exception wins). -/
def getTeams : List Yaml → Except PyErr (List Yaml)
  | [] => .ok []
  | a :: rest => do
    let t ← pyDictGet a "team" .null
    let ts ← getTeams rest
    pure (t :: ts)

/-- Coercion of every collected team value to a string, as required by
`", ".join(...)` (a non-string member raises `TypeError`). -/
def strsOf : List Yaml → Except PyErr (List String)
  | [] => .ok []
  | t :: rest => do
    let s ← t.asStr
    let ss ← strsOf rest
    pure (s :: ss)

/-- Business rule 4 of `_custom_validations`: team registry check.  The
registry is read with no exception handling in the source, so a malformed
registry propagates its parse error and a registry that loads as a
non-mapping raises `AttributeError` at `registry.get`. -/
def check4 (inp : Input) (config : Yaml) : Except PyErr (List Diagnostic) := do
  let app ← pyDictGet config "app" (.map [])
  let team ← pyDictGet app "team" .null
  if team.truthy then
    match inp.registryFile with
    | none => pure []
    | some (.error e) => .error e
    | some (.ok registry) => do
      let appsY ← pyDictGet registry "apps" (.arr [])
      let apps ← yamlIter appsY
      let registered_teams ← getTeams apps
      if !registered_teams.contains team && !(team == Yaml.str "pilot") then
        let strs ← strsOf (dedupYaml registered_teams)
        let joined := ", ".intercalate strs
        pure [teamDiag team.pyStr joined]
      else
        pure []
  else
    pure []

/-- Embedding of `AppConfigValidator._custom_validations`: the four checks
run in order, appending to one list; an exception in any check aborts the
whole validation run. -/
def custom_validations (inp : Input) (config : Yaml) : Except PyErr (List Diagnostic) := do
  let e1 ← check1 inp config
  let e2 ← check2 inp config
  let e3 ← check3 config
  let e4 ← check4 inp config
  pure (e1 ++ e2 ++ e3 ++ e4)

/-- Embedding of `AppConfigValidator.validate`: parse, schema-validate,
then custom validations; the result is `(is_valid, errors)` with
`is_valid = (len(errors) == 0)` on the full pipeline and `False` on the
early returns. -/
def validate (inp : Input) : Except PyErr (Bool × List Diagnostic) :=
  match inp.loadResult with
  | .notFound => .ok (false, [fileNotFoundDiag inp.configPath])
  | .parseFail msg => .ok (false, [yamlErrorDiag msg])
  | .ok config =>
    match inp.schemaCheck config with
    | some e => .ok (false, [explain_validation_error e])
    | none =>
      match custom_validations inp config with
      | .error err => .error err
      | .ok ds => .ok (ds.isEmpty, ds)

/-- Fix-suggestion precedence exactly as the claim words it, for the
refinement comparison with `get_fix_suggestion`: its third branch is keyed
on the presence of an enum constraint in the failing subschema, where the
source keys on the violated keyword being `enum`. -/
def fixSuggestionClaimed (e : ValidationError) : String :=
  if e.schemaPattern = some knownNamePattern then
    "Use only lowercase letters, numbers, and hyphens. Length must be 3-15 characters. Example: \x27my-app\x27 or \x27api-service\x27"
  else if e.validator = "required" then
    let missing := ((pySplit e.message '\x27').getD 1 "")
    "Add the required field \x27" ++ missing ++ "\x27 to your configuration"
  else if e.schemaEnum.isSome then
    let joined := ", ".intercalate (e.schemaEnum.getD [])
    "Value must be one of: " ++ joined
  else if e.validator = "type" then
    let t := e.schemaType.getD "None"
    "This field must be a " ++ t
  else if e.schemaMin.isSome ∨ e.schemaMax.isSome then
    let mn := e.schemaMin.getD ""
    let mx := e.schemaMax.getD ""
    "Value must be between " ++ mn ++ " and " ++ mx
  else
    "Check the schema documentation for correct format"

/-! Concrete inputs exercising the validator. -/

/-- Configuration whose only finding is the high-CPU warning:
`components.backend.cpu = 3`, backend not enabled, no team set. -/
def cfgOnlyWarning : Yaml :=
  .map [("components", .map [("backend", .map [("cpu", .num 3)])])]

/-- Run on `cfgOnlyWarning`: schema passes, no file exists, no registry. -/
def inpOnlyWarning : Input :=
  ⟨.ok cfgOnlyWarning, fun _ => none, fun _ => false, none,
    "apps/demo/app-config.yml", "apps/demo"⟩

/-- Configuration that sets `app.team` and nothing else of note. -/
def cfgTeamSet : Yaml :=
  .map [("app", .map [("team", .str "newteam")])]

/-- Run on `cfgTeamSet` where the registry file exists but is empty, so
`yaml.safe_load` yields `None`. -/
def inpEmptyRegistry : Input :=
  ⟨.ok cfgTeamSet, fun _ => none, fun _ => false, some (.ok .null),
    "apps/demo/app-config.yml", "apps/demo"⟩

/-- Schema violation: the document is missing the required `app` section
(empty error path, `required` keyword). -/
def eRequired : ValidationError :=
  ⟨"\x27app\x27 is a required property", [], "required", none, none, none, none, none⟩

/-- Schema violation produced by a type mismatch against the subschema
`type: string, enum: [dev, staging, prod]` of `environment`: the violated
keyword is `type` while the failing subschema also carries an enum
constraint. -/
def eTypeWithEnum : ValidationError :=
  ⟨"3 is not of type \x27string\x27", ["environment"], "type", none,
    some ["dev", "staging", "prod"], some "string", none, none⟩

/-- Pattern violation on `app.name` against the known identifier pattern. -/
def ePattern : ValidationError :=
  ⟨"\x27My-App\x27 does not match \x27^[a-z0-9-]\x7b3,15\x7d$\x27",
    ["app", "name"], "pattern", some knownNamePattern, none, none, none, none⟩

/-- Run whose configuration file does not exist. -/
def inpNotFound : Input :=
  ⟨.notFound, fun _ => none, fun _ => false, none,
    "apps/ghost/app-config.yml", "apps/ghost"⟩

/-- Run whose configuration file holds malformed YAML. -/
def inpParseFail : Input :=
  ⟨.parseFail "mapping values are not allowed here", fun _ => none,
    fun _ => false, none, "apps/demo/app-config.yml", "apps/demo"⟩

/-- Run whose document fails schema validation with `eRequired`. -/
def inpSchemaFail : Input :=
  ⟨.ok (.map []), fun _ => some eRequired, fun _ => false, none,
    "apps/demo/app-config.yml", "apps/demo"⟩

/-- Document with the backend component enabled and default directory. -/
def cfgBackendOn : Yaml :=
  .map [("components", .map [("backend", .map [("enabled", .bool true)])])]

/-- Run on `cfgBackendOn` with an empty filesystem: no Dockerfile. -/
def inpBackendOn : Input :=
  ⟨.ok cfgBackendOn, fun _ => none, fun _ => false, none,
    "apps/demo/app-config.yml", "apps/demo"⟩

/-- The same document with `components.backend.enabled` set to false. -/
def cfgBackendOff : Yaml :=
  .map [("components", .map [("backend", .map [("enabled", .bool false)])])]

/-- Run on `cfgBackendOff` with the same empty filesystem. -/
def inpBackendOff : Input :=
  ⟨.ok cfgBackendOff, fun _ => none, fun _ => false, none,
    "apps/demo/app-config.yml", "apps/demo"⟩

/-- Document requesting two and a half CPU cores. -/
def cfgCpu25 : Yaml :=
  .map [("components", .map [("backend", .map [("cpu", .num (Rat.divInt 5 2))])])]

/-- Run on `cfgCpu25`. -/
def inpCpu25 : Input :=
  ⟨.ok cfgCpu25, fun _ => none, fun _ => false, none,
    "apps/demo/app-config.yml", "apps/demo"⟩

/-- Parsed team registry with two registered applications. -/
def registryTwoTeams : Yaml :=
  .map [("apps", .arr [.map [("team", .str "platform-team")],
                       .map [("team", .str "data-team")]])]

/-- Document owned by a team that is not in the registry. -/
def cfgTeamUnknown : Yaml :=
  .map [("app", .map [("team", .str "mystery")])]

/-- Run on `cfgTeamUnknown` against `registryTwoTeams`. -/
def inpTeamUnknown : Input :=
  ⟨.ok cfgTeamUnknown, fun _ => none, fun _ => false, some (.ok registryTwoTeams),
    "apps/demo/app-config.yml", "apps/demo"⟩

/-- Run on `cfgTeamUnknown` with no registry resource on disk. -/
def inpTeamNoRegistry : Input :=
  ⟨.ok cfgTeamUnknown, fun _ => none, fun _ => false, none,
    "apps/demo/app-config.yml", "apps/demo"⟩

/-! Helper lemmas about the `Except` monad as used by the embedding. -/

/-- Bind on a successful `Except` computation reduces to the continuation. -/
@[simp] theorem pyBind_ok {α β : Type} (a : α) (f : α → Except PyErr β) :
    (Except.ok a >>= f) = f a := rfl

/-- Bind on a failed `Except` computation propagates the exception. -/
@[simp] theorem pyBind_err {α β : Type} (er : PyErr) (f : α → Except PyErr β) :
    ((Except.error er : Except PyErr α) >>= f) = .error er := rfl

/-- Pure values in the `Except` monad are `ok`. -/
@[simp] theorem pyPure_eq {α : Type} (a : α) :
    (pure a : Except PyErr α) = .ok a := rfl

/-! Theorems settling the claims. -/

/-- C1: the claim states that `is_valid` holds exactly when no structural
diagnostic and no error/critical business diagnostic exists, so that a
warning-only report is valid.  The code computes `is_valid` as
`len(errors) == 0`, so the document whose only diagnostic is the
severity-warning high-CPU warning comes back with `is_valid = false`:
the code contradicts the claimed invariant. -/
theorem C1_warning_flips_validity :
    validate inpOnlyWarning = .ok (false, [highCpuDiag 3]) ∧
    (highCpuDiag 3).severity = .warning := by
  constructor
  · rfl
  · rfl

/-- C2: the claim states that no expected failure mode escapes `validate`
as an uncaught exception, explicitly including a malformed or empty team
registry.  When the registry file exists but is empty, `yaml.safe_load`
yields `None` and `registry.get("apps", [])` raises `AttributeError`,
which `_custom_validations` does not catch: the exception propagates out
of `validate`. -/
theorem C2_empty_registry_raises :
    validate inpEmptyRegistry = .error .attributeError := by
  rfl

/-- C3: a document that fails to load (file missing or YAML malformed) or
fails structural validation short-circuits the pipeline: business rules do
not run and the report holds exactly that one diagnostic, which for the
two loader failures has severity critical. -/
theorem C3_load_failure_short_circuit (inp : Input) (msg : String)
    (config : Yaml) (e : ValidationError) :
    (inp.loadResult = .notFound →
      validate inp = .ok (false, [fileNotFoundDiag inp.configPath])) ∧
    (inp.loadResult = .parseFail msg →
      validate inp = .ok (false, [yamlErrorDiag msg])) ∧
    (inp.loadResult = .ok config → inp.schemaCheck config = some e →
      validate inp = .ok (false, [explain_validation_error e])) ∧
    (fileNotFoundDiag inp.configPath).severity = .critical ∧
    (yamlErrorDiag msg).severity = .critical := by
  refine ⟨?_, ?_, ?_, rfl, rfl⟩
  · intro h; simp [validate, h]
  · intro h; simp [validate, h]
  · intro h1 h2; simp [validate, h1, h2]

/-- Witness for C3 at three concrete runs: a missing file, a malformed
file, and a schema violation. -/
theorem C3_load_failure_short_circuit_witness :
    validate inpNotFound = .ok (false, [fileNotFoundDiag "apps/ghost/app-config.yml"]) ∧
    validate inpParseFail = .ok (false, [yamlErrorDiag "mapping values are not allowed here"]) ∧
    validate inpSchemaFail = .ok (false, [explain_validation_error eRequired]) :=
  ⟨(C3_load_failure_short_circuit inpNotFound "m" .null eRequired).1 rfl,
   (C3_load_failure_short_circuit inpParseFail "mapping values are not allowed here"
      .null eRequired).2.1 rfl,
   (C3_load_failure_short_circuit inpSchemaFail "m" (.map []) eRequired).2.2.1 rfl rfl⟩

/-- C4 counterexample: the claim orders the enum clause before the
type-mismatch clause and keys it on the presence of an enum constraint.
A type-mismatch violation whose failing subschema also carries an enum
constraint (as `environment` with `type: string, enum: [...]` yields when
given a number) gets the type-mismatch fix from the code, not the
enum fix the claimed precedence demands. -/
theorem C4_enum_clause_counterexample :
    get_fix_suggestion eTypeWithEnum = "This field must be a string" ∧
    fixSuggestionClaimed eTypeWithEnum = "Value must be one of: dev, staging, prod" ∧
    get_fix_suggestion eTypeWithEnum ≠ fixSuggestionClaimed eTypeWithEnum := by
  refine ⟨rfl, rfl, ?_⟩
  decide

/-- C4 as amended: the fix text follows the claimed precedence with the
enum clause keyed on the violated keyword being `enum` (like the
missing-required and type clauses), not on mere presence of an enum
constraint; the pattern and numeric-bounds clauses remain keyed on the
constraint being present in the failing subschema. -/
theorem C4_fix_precedence (e : ValidationError) :
    (e.schemaPattern = some knownNamePattern →
      get_fix_suggestion e = "Use only lowercase letters, numbers, and hyphens. Length must be 3-15 characters. Example: \x27my-app\x27 or \x27api-service\x27") ∧
    (e.schemaPattern ≠ some knownNamePattern → e.validator = "required" →
      get_fix_suggestion e =
        "Add the required field \x27" ++ ((pySplit e.message '\x27').getD 1 "") ++ "\x27 to your configuration") ∧
    (e.schemaPattern ≠ some knownNamePattern → e.validator ≠ "required" →
      e.validator = "enum" →
      get_fix_suggestion e = "Value must be one of: " ++ ", ".intercalate (e.schemaEnum.getD [])) ∧
    (e.schemaPattern ≠ some knownNamePattern → e.validator ≠ "required" →
      e.validator ≠ "enum" → e.validator = "type" →
      get_fix_suggestion e = "This field must be a " ++ e.schemaType.getD "None") ∧
    (e.schemaPattern ≠ some knownNamePattern → e.validator ≠ "required" →
      e.validator ≠ "enum" → e.validator ≠ "type" →
      (e.schemaMin.isSome ∨ e.schemaMax.isSome) →
      get_fix_suggestion e = "Value must be between " ++ e.schemaMin.getD "" ++ " and " ++ e.schemaMax.getD "") ∧
    (e.schemaPattern ≠ some knownNamePattern → e.validator ≠ "required" →
      e.validator ≠ "enum" → e.validator ≠ "type" →
      e.schemaMin = none → e.schemaMax = none →
      get_fix_suggestion e = "Check the schema documentation for correct format") := by
  refine ⟨?_, ?_, ?_, ?_, ?_, ?_⟩ <;> intros <;> simp [get_fix_suggestion, *]

/-- Witness for the amended C4 at a pattern violation and a
missing-required-field violation. -/
theorem C4_fix_precedence_witness :
    get_fix_suggestion ePattern = "Use only lowercase letters, numbers, and hyphens. Length must be 3-15 characters. Example: \x27my-app\x27 or \x27api-service\x27" ∧
    get_fix_suggestion eRequired = "Add the required field \x27app\x27 to your configuration" :=
  ⟨(C4_fix_precedence ePattern).1 rfl,
   ((C4_fix_precedence eRequired).2.1 (by decide) rfl).trans (by decide)⟩

/-- C5: on a structurally valid document with `components.backend.enabled`
truthy and no Dockerfile at the resolved directory, the report holds the
severity-error diagnostic naming the expected path and `is_valid` is
false; with `enabled` falsy and no other rule firing, the report is
valid. -/
theorem C5_backend_dockerfile_rule (inp : Input) (config comps backend enabled dirY : Yaml)
    (dirS : String) (l2 l3 l4 : List Diagnostic)
    (hload : inp.loadResult = .ok config)
    (hschema : inp.schemaCheck config = none)
    (hcomps : pyDictGet config "components" (.map []) = .ok comps)
    (hbackend : pyDictGet comps "backend" (.map []) = .ok backend)
    (henabled : pyDictGet backend "enabled" .null = .ok enabled)
    (htruthy : enabled.truthy = true)
    (hdir : pyDictGet backend "directory" (.str "./backend") = .ok dirY)
    (hdirS : dirY.asStr = .ok dirS)
    (hmiss : inp.fsExists (pathJoin (pathJoin inp.configDir dirS) "Dockerfile") = false)
    (h2 : check2 inp config = .ok l2)
    (h3 : check3 config = .ok l3)
    (h4 : check4 inp config = .ok l4) :
    validate inp = .ok (false,
      backendDockerfileDiag (pathJoin (pathJoin inp.configDir dirS) "Dockerfile")
        :: (l2 ++ l3 ++ l4)) ∧
    (backendDockerfileDiag (pathJoin (pathJoin inp.configDir dirS) "Dockerfile")).severity = .error ∧
    (backendDockerfileDiag (pathJoin (pathJoin inp.configDir dirS) "Dockerfile")).error =
      "Backend enabled but Dockerfile not found at " ++ pathJoin (pathJoin inp.configDir dirS) "Dockerfile" ∧
    (∀ (inp2 : Input) (config2 comps2 backend2 enabled2 : Yaml),
      inp2.loadResult = .ok config2 →
      inp2.schemaCheck config2 = none →
      pyDictGet config2 "components" (.map []) = .ok comps2 →
      pyDictGet comps2 "backend" (.map []) = .ok backend2 →
      pyDictGet backend2 "enabled" .null = .ok enabled2 →
      enabled2.truthy = false →
      check2 inp2 config2 = .ok [] →
      check3 config2 = .ok [] →
      check4 inp2 config2 = .ok [] →
      validate inp2 = .ok (true, [])) := by
  have hc1 : check1 inp config =
      .ok [backendDockerfileDiag (pathJoin (pathJoin inp.configDir dirS) "Dockerfile")] := by
    simp [check1, hcomps, hbackend, henabled, htruthy, hdir, hdirS, hmiss]
  refine ⟨?_, rfl, rfl, ?_⟩
  · simp [validate, hload, hschema, custom_validations, hc1, h2, h3, h4]
  · intro inp2 config2 comps2 backend2 enabled2 g1 g2 g3 g4 g5 g6 g7 g8 g9
    have gc1 : check1 inp2 config2 = .ok [] := by
      simp [check1, g3, g4, g5, g6]
    simp [validate, g1, g2, custom_validations, gc1, g7, g8, g9]

/-- Witness for C5: the enabled document with an empty filesystem is
invalid with the Dockerfile diagnostic; the same document with the flag
set to false is valid. -/
theorem C5_backend_dockerfile_rule_witness :
    validate inpBackendOn = .ok (false, [backendDockerfileDiag "apps/demo/backend/Dockerfile"]) ∧
    validate inpBackendOff = .ok (true, []) := by
  have h := C5_backend_dockerfile_rule inpBackendOn cfgBackendOn
    (.map [("backend", .map [("enabled", .bool true)])])
    (.map [("enabled", .bool true)]) (.bool true) (.str "./backend") "./backend"
    [] [] [] rfl rfl rfl rfl rfl rfl rfl rfl rfl rfl rfl rfl
  exact ⟨h.1, h.2.2.2 inpBackendOff cfgBackendOff
    (.map [("backend", .map [("enabled", .bool false)])])
    (.map [("enabled", .bool false)]) (.bool false) rfl rfl rfl rfl rfl rfl rfl rfl rfl⟩

/-- C6: on a structurally valid document the high-CPU diagnostic appears
in the report exactly when `components.backend.cpu` exceeds 2.0; it has
severity warning, states the estimated monthly cost `cpu * 20`, and
suggests reducing to 1.0 or 2.0. -/
theorem C6_high_cpu_warning (inp : Input) (config comps backend cpuY : Yaml) (q : ℚ)
    (l1 l2 l4 : List Diagnostic)
    (hload : inp.loadResult = .ok config)
    (hschema : inp.schemaCheck config = none)
    (h1 : check1 inp config = .ok l1)
    (h2 : check2 inp config = .ok l2)
    (hcomps : pyDictGet config "components" (.map []) = .ok comps)
    (hbackend : pyDictGet comps "backend" (.map []) = .ok backend)
    (hcpu : pyDictGet backend "cpu" (.num 0) = .ok cpuY)
    (hq : cpuY.asNum = .ok q)
    (h4 : check4 inp config = .ok l4) :
    validate inp = .ok
      ((l1 ++ l2 ++ (if 2 < q then [highCpuDiag q] else []) ++ l4).isEmpty,
        l1 ++ l2 ++ (if 2 < q then [highCpuDiag q] else []) ++ l4) ∧
    (highCpuDiag q).severity = .warning ∧
    (highCpuDiag q).why_this_matters =
      "This will cost approximately £" ++ fmt2 (q * 20) ++
        "/month just for CPU. Consider starting with 1-2 cores and scaling up if needed." ∧
    (highCpuDiag q).fix =
      "Reduce components.backend.cpu to 1.0 or 2.0 unless you have specific performance requirements" := by
  have hc3 : check3 config = .ok (if 2 < q then [highCpuDiag q] else []) := by
    simp only [check3, hcomps, hbackend, hcpu, hq, pyBind_ok, pyPure_eq]
    split <;> rfl
  refine ⟨?_, rfl, rfl, rfl⟩
  simp [validate, hload, hschema, custom_validations, h1, h2, hc3, h4]

/-- Witness for C6 at 2.5 cores: the warning fires with a £50.00 monthly
estimate. -/
theorem C6_high_cpu_warning_witness :
    validate inpCpu25 = .ok (false, [highCpuDiag (Rat.divInt 5 2)]) ∧
    (highCpuDiag (Rat.divInt 5 2)).severity = .warning ∧
    (highCpuDiag (Rat.divInt 5 2)).why_this_matters =
      "This will cost approximately £50.00/month just for CPU. Consider starting with 1-2 cores and scaling up if needed." := by
  have h := C6_high_cpu_warning inpCpu25 cfgCpu25
    (.map [("backend", .map [("cpu", .num (Rat.divInt 5 2))])])
    (.map [("cpu", .num (Rat.divInt 5 2))]) (.num (Rat.divInt 5 2)) (Rat.divInt 5 2)
    [] [] [] rfl rfl rfl rfl rfl rfl rfl rfl rfl
  refine ⟨?_, h.2.1, ?_⟩
  · have h1 := h.1
    simpa using h1
  · have h3 := h.2.2.1
    rw [h3, show (Rat.divInt 5 2 * 20 : ℚ) = 50 by rw [Rat.divInt_eq_div]; norm_num]
    decide

/-- C7: on a structurally valid document with `app.team` set, a loadable
registry whose teams do not include the team, and a team other than the
reserved value pilot, a severity-warning diagnostic listing the known
teams is produced; with no registry resource the rule adds nothing. -/
theorem C7_team_registry_rule (inp : Input) (config app team registry appsY : Yaml)
    (apps regTeams : List Yaml) (strs : List String) (l1 l2 l3 : List Diagnostic)
    (hload : inp.loadResult = .ok config)
    (hschema : inp.schemaCheck config = none)
    (h1 : check1 inp config = .ok l1)
    (h2 : check2 inp config = .ok l2)
    (h3 : check3 config = .ok l3)
    (happ : pyDictGet config "app" (.map []) = .ok app)
    (hteam : pyDictGet app "team" .null = .ok team)
    (htruthy : team.truthy = true) :
    (inp.registryFile = some (.ok registry) →
      pyDictGet registry "apps" (.arr []) = .ok appsY →
      yamlIter appsY = .ok apps →
      getTeams apps = .ok regTeams →
      regTeams.contains team = false →
      (team == Yaml.str "pilot") = false →
      strsOf (dedupYaml regTeams) = .ok strs →
      validate inp = .ok (false,
        l1 ++ l2 ++ l3 ++ [teamDiag team.pyStr (", ".intercalate strs)]) ∧
      (teamDiag team.pyStr (", ".intercalate strs)).severity = .warning ∧
      (teamDiag team.pyStr (", ".intercalate strs)).fix =
        "1. Add your team to apps/_registry.yml, OR\n2. Use an existing team name: " ++
          ", ".intercalate strs) ∧
    (inp.registryFile = none →
      validate inp = .ok ((l1 ++ l2 ++ l3).isEmpty, l1 ++ l2 ++ l3)) := by
  constructor
  · intro hreg happs hiter hmap hnotin hpilot hstrs
    have hc4 : check4 inp config =
        .ok [teamDiag team.pyStr (", ".intercalate strs)] := by
      simp [check4, happ, hteam, htruthy, hreg, happs, hiter, hmap, hnotin, hpilot, hstrs]
    refine ⟨?_, rfl, rfl⟩
    simp [validate, hload, hschema, custom_validations, h1, h2, h3, hc4]
  · intro hreg
    have hc4 : check4 inp config = .ok [] := by
      simp [check4, happ, hteam, htruthy, hreg]
    simp [validate, hload, hschema, custom_validations, h1, h2, h3, hc4]

/-- Witness for C7: an unknown team against a two-team registry warns and
lists both teams; the same document with no registry is valid. -/
theorem C7_team_registry_rule_witness :
    validate inpTeamUnknown = .ok (false, [teamDiag "mystery" "platform-team, data-team"]) ∧
    (teamDiag "mystery" "platform-team, data-team").severity = .warning ∧
    validate inpTeamNoRegistry = .ok (true, []) := by
  have h := C7_team_registry_rule inpTeamUnknown cfgTeamUnknown
    (.map [("team", .str "mystery")]) (.str "mystery") registryTwoTeams
    (.arr [.map [("team", .str "platform-team")], .map [("team", .str "data-team")]])
    [.map [("team", .str "platform-team")], .map [("team", .str "data-team")]]
    [.str "platform-team", .str "data-team"] ["platform-team", "data-team"]
    [] [] [] rfl rfl rfl rfl rfl rfl rfl rfl
  have ha := h.1 rfl rfl rfl rfl rfl rfl rfl
  have hb := C7_team_registry_rule inpTeamNoRegistry cfgTeamUnknown
    (.map [("team", .str "mystery")]) (.str "mystery") .null (.arr []) [] [] []
    [] [] [] rfl rfl rfl rfl rfl rfl rfl rfl
  exact ⟨by simpa using ha.1, ha.2.1, by simpa using hb.2 rfl⟩

/-- C8: one schema violation yields a report with exactly that one
structural diagnostic (first failure wins), whose field is the dotted
path of the violation, or root when the path is empty. -/
theorem C8_single_structural_diagnostic (inp : Input) (config : Yaml) (e : ValidationError) :
    (inp.loadResult = .ok config → inp.schemaCheck config = some e →
      validate inp = .ok (false, [explain_validation_error e])) ∧
    (explain_validation_error e).fieldPath =
      some (if e.path.isEmpty then "root" else String.intercalate "." e.path) := by
  constructor
  · intro h1 h2; simp [validate, h1, h2]
  · simp [explain_validation_error, errorFieldPath]

/-- Witness for C8: a required-field violation at the document root gives
the field root; a violation under `environment` gives that path. -/
theorem C8_single_structural_diagnostic_witness :
    validate inpSchemaFail = .ok (false, [explain_validation_error eRequired]) ∧
    (explain_validation_error eRequired).fieldPath = some "root" ∧
    (explain_validation_error eTypeWithEnum).fieldPath = some "environment" :=
  ⟨(C8_single_structural_diagnostic inpSchemaFail (.map []) eRequired).1 rfl rfl,
   (C8_single_structural_diagnostic inpSchemaFail (.map []) eRequired).2,
   (C8_single_structural_diagnostic inpSchemaFail (.map []) eTypeWithEnum).2⟩

/-- C9: when `components.backend.cpu` is absent — including when
`components` or `components.backend` is absent — the high-CPU rule reads
the value as 0 and emits nothing; conversely a high-CPU diagnostic forces
an explicitly present cpu entry whose numeric value exceeds 2.0. -/
theorem C9_cpu_absent_default (kvs bkvs ckvs : List (String × Yaml))
    (cfg : Yaml) (l : List Diagnostic) :
    (kvs.lookup "components" = none → check3 (.map kvs) = .ok []) ∧
    (kvs.lookup "components" = some (.map bkvs) → bkvs.lookup "backend" = none →
      check3 (.map kvs) = .ok []) ∧
    (kvs.lookup "components" = some (.map bkvs) →
      bkvs.lookup "backend" = some (.map ckvs) → ckvs.lookup "cpu" = none →
      check3 (.map kvs) = .ok []) ∧
    (check3 cfg = .ok l → l ≠ [] →
      ∃ comps ckvs2 cpuY q, pyDictGet cfg "components" (.map []) = .ok comps ∧
        pyDictGet comps "backend" (.map []) = .ok (.map ckvs2) ∧
        ckvs2.lookup "cpu" = some cpuY ∧ cpuY.asNum = .ok q ∧ 2 < q) := by
  refine ⟨?_, ?_, ?_, ?_⟩
  · intro h
    have : check3 (.map kvs) = (if (2:ℚ) < 0 then .ok [highCpuDiag 0] else .ok []) := by
      simp [check3, pyDictGet, h, Yaml.asNum]
    rw [this, if_neg (by norm_num)]
  · intro h1 h2
    have : check3 (.map kvs) = (if (2:ℚ) < 0 then .ok [highCpuDiag 0] else .ok []) := by
      simp [check3, pyDictGet, h1, h2, Yaml.asNum]
    rw [this, if_neg (by norm_num)]
  · intro h1 h2 h3
    have : check3 (.map kvs) = (if (2:ℚ) < 0 then .ok [highCpuDiag 0] else .ok []) := by
      simp [check3, pyDictGet, h1, h2, h3, Yaml.asNum]
    rw [this, if_neg (by norm_num)]
  · intro h hne
    simp only [check3] at h
    cases hc : pyDictGet cfg "components" (.map []) with
    | error e => rw [hc] at h; simp at h
    | ok comps =>
      rw [hc] at h; simp only [pyBind_ok] at h
      cases hb : pyDictGet comps "backend" (.map []) with
      | error e => rw [hb] at h; simp at h
      | ok backend =>
        rw [hb] at h; simp only [pyBind_ok] at h
        cases backend with
        | map ckvs2 =>
          cases hcpu : ckvs2.lookup "cpu" with
          | none =>
            simp only [pyDictGet, hcpu, Option.getD, pyBind_ok, Yaml.asNum] at h
            rw [if_neg (by norm_num)] at h
            simp at h
            exact absurd h hne
          | some cpuY =>
            simp only [pyDictGet, hcpu, Option.getD, pyBind_ok] at h
            cases hq : cpuY.asNum with
            | error e => rw [hq] at h; simp at h
            | ok q =>
              rw [hq] at h; simp only [pyBind_ok] at h
              by_cases hlt : (2:ℚ) < q
              · exact ⟨comps, ckvs2, cpuY, q, rfl, hb, hcpu, hq, hlt⟩
              · rw [if_neg hlt] at h
                simp at h
                exact absurd h hne
        | null => simp [pyDictGet] at h
        | bool b => simp [pyDictGet] at h
        | num q => simp [pyDictGet] at h
        | str s => simp [pyDictGet] at h
        | arr xs => simp [pyDictGet] at h

/-- Witness for C9: the empty document triggers nothing, and the firing
rule on the three-core document exposes its explicit cpu entry. -/
theorem C9_cpu_absent_default_witness :
    check3 (.map []) = .ok [] ∧
    (∃ comps ckvs2 cpuY q, pyDictGet cfgOnlyWarning "components" (.map []) = .ok comps ∧
      pyDictGet comps "backend" (.map []) = .ok (.map ckvs2) ∧
      ckvs2.lookup "cpu" = some cpuY ∧ cpuY.asNum = .ok q ∧ 2 < q) :=
  ⟨(C9_cpu_absent_default [] [] [] cfgOnlyWarning [highCpuDiag 3]).1 rfl,
   (C9_cpu_absent_default [] [] [] cfgOnlyWarning [highCpuDiag 3]).2.2.2 rfl (by simp)⟩

/-- Diagnostics of the backend Dockerfile rule are never critical. -/
theorem check1_no_critical (inp : Input) (config : Yaml) (l : List Diagnostic)
    (h : check1 inp config = .ok l) : ∀ d ∈ l, d.severity ≠ .critical := by
  simp only [check1, Bind.bind, Except.bind] at h
  repeat' split at h
  all_goals try simp_all [backendDockerfileDiag]
  all_goals subst h
  all_goals intro d hd
  all_goals simp only [List.mem_singleton] at hd
  all_goals subst hd
  all_goals simp

/-- Diagnostics of the frontend Dockerfile rule are never critical. -/
theorem check2_no_critical (inp : Input) (config : Yaml) (l : List Diagnostic)
    (h : check2 inp config = .ok l) : ∀ d ∈ l, d.severity ≠ .critical := by
  simp only [check2, Bind.bind, Except.bind] at h
  repeat' split at h
  all_goals try simp_all [frontendDockerfileDiag]
  all_goals subst h
  all_goals intro d hd
  all_goals simp only [List.mem_singleton] at hd
  all_goals subst hd
  all_goals simp

/-- Diagnostics of the high-CPU rule are never critical. -/
theorem check3_no_critical (config : Yaml) (l : List Diagnostic)
    (h : check3 config = .ok l) : ∀ d ∈ l, d.severity ≠ .critical := by
  simp only [check3, Bind.bind, Except.bind] at h
  repeat' split at h
  all_goals try simp_all [highCpuDiag]
  all_goals subst h
  all_goals intro d hd
  all_goals simp only [List.mem_singleton] at hd
  all_goals subst hd
  all_goals simp

/-- Diagnostics of the team registry rule are never critical. -/
theorem check4_no_critical (inp : Input) (config : Yaml) (l : List Diagnostic)
    (h : check4 inp config = .ok l) : ∀ d ∈ l, d.severity ≠ .critical := by
  simp only [check4, Bind.bind, Except.bind] at h
  repeat' split at h
  all_goals try simp_all [teamDiag]
  all_goals subst h
  all_goals intro d hd
  all_goals simp only [List.mem_singleton] at hd
  all_goals subst hd
  all_goals simp

/-- A successful custom-validation pass is the concatenation of the four
checks' diagnostic lists, each of which succeeded. -/
theorem custom_validations_parts (inp : Input) (config : Yaml) (ds : List Diagnostic)
    (h : custom_validations inp config = .ok ds) :
    ∃ l1 l2 l3 l4, check1 inp config = .ok l1 ∧ check2 inp config = .ok l2 ∧
      check3 config = .ok l3 ∧ check4 inp config = .ok l4 ∧ ds = l1 ++ l2 ++ l3 ++ l4 := by
  simp only [custom_validations, Bind.bind, Except.bind] at h
  repeat' split at h
  all_goals cases h
  exact ⟨_, _, _, _, by assumption, by assumption, by assumption, by assumption, rfl⟩

/-- C10: every structural diagnostic has severity error and a docs link
derived from the field path; severity critical occurs only in the two
loader diagnostics, never in any business-rule diagnostic. -/
theorem C10_severity_partition (e : ValidationError) (inp : Input) (config : Yaml)
    (ds : List Diagnostic) (p m : String) :
    (explain_validation_error e).severity = .error ∧
    (explain_validation_error e).docs_link = some (get_docs_link (errorFieldPath e)) ∧
    (fileNotFoundDiag p).severity = .critical ∧
    (yamlErrorDiag m).severity = .critical ∧
    (custom_validations inp config = .ok ds → ∀ d ∈ ds, d.severity ≠ .critical) := by
  refine ⟨rfl, rfl, rfl, rfl, ?_⟩
  intro h d hd
  obtain ⟨l1, l2, l3, l4, h1, h2, h3, h4, hds⟩ := custom_validations_parts inp config ds h
  subst hds
  simp only [List.mem_append] at hd
  rcases hd with ((hd | hd) | hd) | hd
  · exact check1_no_critical inp config l1 h1 d hd
  · exact check2_no_critical inp config l2 h2 d hd
  · exact check3_no_critical config l3 h3 d hd
  · exact check4_no_critical inp config l4 h4 d hd

/-- Witness for C10 at the warning-only run: the structural-diagnostic
facts instantiate, and the high-CPU warning is not critical. -/
theorem C10_severity_partition_witness :
    (explain_validation_error eRequired).severity = .error ∧
    (highCpuDiag 3).severity ≠ .critical := by
  have h := C10_severity_partition eRequired inpOnlyWarning cfgOnlyWarning [highCpuDiag 3] "p" "m"
  exact ⟨h.1, h.2.2.2.2 rfl (highCpuDiag 3) (by simp)⟩

end AppConfig
